import Mathlib

/-!
Verification development for the proxmox-mcp-server repository.

The Python source is shallowly embedded: each relevant function of
`src/proxmox_client.py`, `src/auth.py`, `src/mcp_server.py`,
`src/services/vm_service.py` and `src/exceptions.py` becomes a Lean
definition carrying the same name.  Python dictionaries and JSON-like
values are modelled by `PyVal`, raised exceptions by `PError` values
returned through `Except`.
-/

/-- A Python/JSON-like value: strings, integers, booleans, `None` and
string-keyed dictionaries (association lists, insertion ordered, as in
Python). -/
inductive PyVal where
  | str : String → PyVal
  | intV : Int → PyVal
  | boolV : Bool → PyVal
  | noneV : PyVal
  | dict : List (String × PyVal) → PyVal

mutual

/-- Structural equality test on `PyVal` (deriving `DecidableEq` is not
available for this nested inductive, so it is spelled out). -/
def pyBeq : PyVal → PyVal → Bool
  | .str a, .str b => a == b
  | .intV a, .intV b => a == b
  | .boolV a, .boolV b => a == b
  | .noneV, .noneV => true
  | .dict a, .dict b => pyBeqD a b
  | _, _ => false

/-- Structural equality test on dict entry lists. -/
def pyBeqD : List (String × PyVal) → List (String × PyVal) → Bool
  | [], [] => true
  | (k, v) :: r, (k2, v2) :: r2 => k == k2 && pyBeq v v2 && pyBeqD r r2
  | _, _ => false

end

mutual

theorem pyBeq_iff : ∀ a b : PyVal, pyBeq a b = true ↔ a = b
  | .str a, .str b => by simp [pyBeq]
  | .str _, .intV _ | .str _, .boolV _ | .str _, .noneV | .str _, .dict _ => by simp [pyBeq]
  | .intV a, .intV b => by simp [pyBeq]
  | .intV _, .str _ | .intV _, .boolV _ | .intV _, .noneV | .intV _, .dict _ => by simp [pyBeq]
  | .boolV a, .boolV b => by simp [pyBeq]
  | .boolV _, .str _ | .boolV _, .intV _ | .boolV _, .noneV | .boolV _, .dict _ => by
    simp [pyBeq]
  | .noneV, .noneV => by simp [pyBeq]
  | .noneV, .str _ | .noneV, .intV _ | .noneV, .boolV _ | .noneV, .dict _ => by simp [pyBeq]
  | .dict a, .dict b => by simp [pyBeq, pyBeqD_iff a b]
  | .dict _, .str _ | .dict _, .intV _ | .dict _, .boolV _ | .dict _, .noneV => by simp [pyBeq]

theorem pyBeqD_iff : ∀ a b : List (String × PyVal), pyBeqD a b = true ↔ a = b
  | [], [] => by simp [pyBeqD]
  | [], _ :: _ => by simp [pyBeqD]
  | _ :: _, [] => by simp [pyBeqD]
  | (k, v) :: r, (k2, v2) :: r2 => by
    simp [pyBeqD, pyBeq_iff v v2, pyBeqD_iff r r2, Prod.ext_iff, and_assoc]

end

instance : DecidableEq PyVal := fun a b => decidable_of_iff _ (pyBeq_iff a b)

/-- Dictionary lookup, `d[k]` / `d.get(k)`: first binding of the key. -/
def pyGet (v : PyVal) (k : String) : Option PyVal :=
  match v with
  | .dict l => l.lookup k
  | _ => none

example : pyGet (.dict [("status", .str "running")]) "status" = some (.str "running") := rfl

/-- Python truthiness of a `PyVal` (`if version_info:`): empty string,
`0`, `False`, `None` and the empty dict are falsy, everything else truthy. -/
def pyTruthy : PyVal → Bool
  | .str s => s ≠ ""
  | .intV n => n ≠ 0
  | .boolV b => b
  | .noneV => false
  | .dict l => !l.isEmpty

/-!  ## src/exceptions.py

Every exception of the repository derives from `ProxmoxMCPException`,
which carries `message`, `error_code` (defaulting to
`"PROXMOX_MCP_ERROR"`) and a `details` dict.  A raised exception is
modelled as a `PError` value; `str(e)` on such an exception is its
`message` (the base constructor calls `super().__init__(self.message)`).
-/

structure PError where
  message : String
  errorCode : String
  details : List (String × PyVal)
deriving DecidableEq

/-- `ProxmoxMCPException(message)` — the base exception built with the
defaulted `error_code=None, details=None`, as raised throughout the
client, services and dispatcher. -/
def ProxmoxMCPException (message : String) : PError :=
  { message := message, errorCode := "PROXMOX_MCP_ERROR", details := [] }

/-- `ProxmoxTimeoutException(message, timeout)` — code
`"PROXMOX_TIMEOUT_ERROR"`; a truthy `timeout` is recorded in the
structured `details` map.  Defined in `src/exceptions.py` but never
raised anywhere in the repository. -/
def ProxmoxTimeoutException (message : String) (timeout : Option Int) : PError :=
  { message := message, errorCode := "PROXMOX_TIMEOUT_ERROR",
    details := match timeout with
      | some t => if t ≠ 0 then [("timeout", .intV t)] else []
      | none => [] }

/-- `ProxmoxPermissionException(message, required_permission)` — code
`"PROXMOX_PERMISSION_ERROR"`.  Defined in `src/exceptions.py` but never
raised anywhere in the repository. -/
def ProxmoxPermissionException (message : String) (requiredPermission : Option String) : PError :=
  { message := message, errorCode := "PROXMOX_PERMISSION_ERROR",
    details := match requiredPermission with
      | some p => [("required_permission", .str p)]
      | none => [] }

/-- `str(x)` for the values that reach the retry wrapper's final
f-string: `str(None) = "None"`, and `str(e)` of an exception is its
message, which the embedding carries directly as a `String`. -/
def pyStrOfLast : Option String → String
  | none => "None"
  | some s => s

/-!  ## src/proxmox_client.py — `ProxmoxClient._execute_with_retry`

```python
async def _execute_with_retry(self, operation, max_retries: int = 3, delay: float = 1.0):
    last_exception = None
    for attempt in range(max_retries):
        try:
            ... return await operation() ...
        except Exception as e:
            last_exception = e
            logger.warning(...)
            if attempt < max_retries - 1:
                await asyncio.sleep(delay * (2 ** attempt))
            else:
                logger.error(...)
    raise ProxmoxMCPException(f"Operation failed after {max_retries} attempts: {str(last_exception)}")
```

The operation is embedded as `op : Nat → Except String α`, giving the
outcome of its `i`-th invocation (`.error e` models a raised exception
whose `str` is `e`).  `range(max_retries)` over the Python `int`
`max_retries` is empty when `max_retries ≤ 0`, hence the fuel
`max_retries.toNat`.  The second component of the result counts how
many times `operation` was invoked; sleeping between attempts has no
observable effect on the result and is not modelled. -/

def retryGo {α : Type} (op : Nat → Except String α) (total : Int) :
    Nat → Nat → Option String → Except PError α × Nat
  | 0, attempt, last =>
    (.error (ProxmoxMCPException
        ("Operation failed after " ++ toString total ++ " attempts: " ++ pyStrOfLast last)),
      attempt)
  | fuel + 1, attempt, last =>
    match op attempt with
    | .ok a => (.ok a, attempt + 1)
    | .error e => retryGo op total fuel (attempt + 1) (some e)

/-- `ProxmoxClient._execute_with_retry(operation, max_retries)`
(the `delay` argument does not influence the returned value). -/
def execute_with_retry {α : Type} (op : Nat → Except String α) (max_retries : Int) :
    Except PError α × Nat :=
  retryGo op max_retries max_retries.toNat 0 none

example :
    execute_with_retry (fun i => if i = 0 then .error "boom" else .ok 42) 3 = (.ok 42, 2) := rfl

example :
    execute_with_retry (fun _ => (.error "boom" : Except String Nat)) 3 =
      (.error (ProxmoxMCPException "Operation failed after 3 attempts: boom"), 3) := rfl

example :
    execute_with_retry (fun _ => (.error "boom" : Except String Nat)) (-2) =
      (.error (ProxmoxMCPException "Operation failed after -2 attempts: None"), 0) := rfl

/-!  ## src/proxmox_client.py — `ProxmoxClient.wait_for_task`

```python
async def wait_for_task(self, node, upid, timeout=300):
    start_time = datetime.now()
    while True:
        status = await self.get_task_status(node, upid)
        if status['status'] != 'running':
            return status
        if (datetime.now() - start_time).seconds > timeout:
            raise ProxmoxMCPException(f"Task {upid} timed out after {timeout} seconds")
        await asyncio.sleep(2)
```

Timing model: each status fetch is instantaneous and the only elapsed
time comes from the 2-second sleeps, so the `i`-th fetch (0-based)
happens `2*i` seconds after `start_time`.  Python's `timedelta.seconds`
is the seconds *component* of the difference — the total elapsed time
modulo one day (86400 s) — which `tdSeconds` reproduces.  The status
source is `statuses : Nat → PyVal` (the object returned by the `i`-th
poll); `status['status']` on a dict without that key raises `KeyError`,
modelled as a `PError` with code `"KeyError"`.  Because the `% 86400`
wrap-around makes the loop non-terminating for `timeout ≥ 86398`, the
loop is run on explicit fuel: `none` means the loop was still running
after `fuel` polls. -/

def tdSeconds (elapsed : Nat) : Nat := elapsed % 86400

/-- One loop iteration of `wait_for_task`, at poll index `i`. -/
def waitGo (statuses : Nat → PyVal) (upid : String) (timeout : Int) :
    Nat → Nat → Option (Except PError PyVal)
  | 0, _ => none
  | fuel + 1, i =>
    let status := statuses i
    match pyGet status "status" with
    | none => some (.error { message := "status", errorCode := "KeyError", details := [] })
    | some st =>
      if st ≠ .str "running" then some (.ok status)
      else if (tdSeconds (2 * i) : Int) > timeout then
        some (.error (ProxmoxMCPException
          ("Task " ++ upid ++ " timed out after " ++ toString timeout ++ " seconds")))
      else waitGo statuses upid timeout fuel (i + 1)

/-- `ProxmoxClient.wait_for_task(node, upid, timeout)` run for at most
`fuel` polls (the `node` argument only routes the status fetch and is
absorbed into `statuses`). -/
def wait_for_task (statuses : Nat → PyVal) (upid : String) (timeout : Int) (fuel : Nat) :
    Option (Except PError PyVal) :=
  waitGo statuses upid timeout fuel 0

/-!  ## src/auth.py — `RBACManager` -/

/-- `RBACManager.ROLES`: the static role → permission-list table. -/
def ROLES : List (String × List String) :=
  [("admin",
    ["vm:create", "vm:delete", "vm:start", "vm:stop", "vm:clone", "vm:migrate",
     "vm:snapshot", "vm:config", "vm:monitor",
     "lxc:create", "lxc:delete", "lxc:start", "lxc:stop", "lxc:clone",
     "lxc:snapshot", "lxc:config", "lxc:monitor", "lxc:exec",
     "node:monitor", "node:configure", "node:reboot", "node:shutdown",
     "node:services", "node:tasks",
     "cluster:monitor", "cluster:configure", "cluster:ha", "cluster:backup",
     "storage:create", "storage:delete", "storage:configure", "storage:monitor",
     "storage:upload", "storage:download",
     "network:create", "network:delete", "network:configure", "network:monitor",
     "network:sdn", "network:firewall",
     "backup:create", "backup:restore", "backup:delete", "backup:schedule",
     "backup:monitor",
     "system:configure", "system:monitor", "system:logs"]),
   ("operator",
    ["vm:start", "vm:stop", "vm:clone", "vm:snapshot", "vm:monitor",
     "lxc:start", "lxc:stop", "lxc:clone", "lxc:snapshot", "lxc:monitor",
     "node:monitor", "node:tasks",
     "cluster:monitor",
     "storage:monitor", "storage:upload",
     "network:monitor",
     "backup:create", "backup:monitor",
     "system:monitor"]),
   ("viewer",
    ["vm:monitor", "lxc:monitor", "node:monitor", "cluster:monitor",
     "storage:monitor", "network:monitor", "backup:monitor", "system:monitor"])]

/-- `RBACManager.get_user_permissions(user_role)` =
`cls.ROLES.get(user_role, [])`. -/
def get_user_permissions (user_role : String) : List String :=
  (ROLES.lookup user_role).getD []

/-- `RBACManager.check_permission(user_role, required_permission)`;
`enable_rbac` is the `settings.enable_rbac` flag read from the
environment. -/
def check_permission (enable_rbac : Bool) (user_role required_permission : String) : Bool :=
  if !enable_rbac then true
  else decide (required_permission ∈ get_user_permissions user_role)

example : check_permission true "viewer" "vm:start" = false := by decide
example : check_permission true "operator" "vm:start" = true := by decide
example : check_permission false "nobody" "vm:delete" = true := by decide

/-!  ## src/auth.py — `JWTManager`

`create_access_token` copies the claims, inserts the expiry under
`"exp"` and signs with `jose.jwt.encode`; `verify_token` decodes with
`jose.jwt.decode` and maps any `JWTError` to `None`.  The third-party
`jose` primitives are modelled abstractly as an ideal MAC: a token
records its payload together with the signature — the signing key, the
algorithm and a snapshot of the payload that was signed.  `decode`
succeeds exactly when the signature was produced with the presented key
over the presented payload with an accepted algorithm, and the `"exp"`
claim (checked when present, with no leeway) has not passed; tampering
with the payload of an issued token therefore invalidates it, as it
does for an unforgeable MAC. -/

/-- Insert-or-replace `d[k] = v` on an association-list dict
(`to_encode.update({"exp": expire})`). -/
def dictSet (d : List (String × PyVal)) (k : String) (v : PyVal) : List (String × PyVal) :=
  match d with
  | [] => [(k, v)]
  | (k2, v2) :: rest => if k2 = k then (k, v) :: rest else (k2, v2) :: dictSet rest k v

structure Token where
  payload : List (String × PyVal)
  sigKey : String
  sigAlg : String
  sigPayload : List (String × PyVal)

/-- `jose.jwt.encode(claims, key, algorithm)` (ideal-MAC model). -/
def jwtEncode (claims : List (String × PyVal)) (key alg : String) : Token :=
  { payload := claims, sigKey := key, sigAlg := alg, sigPayload := claims }

/-- `jose.jwt.decode(token, key, algorithms)` at time `now` (seconds):
`.error` models a raised `JWTError` (bad signature, wrong algorithm, or
`ExpiredSignatureError` when `exp < now`). -/
def jwtDecode (t : Token) (key : String) (algs : List String) (now : Int) :
    Except String (List (String × PyVal)) :=
  if t.sigKey = key ∧ t.sigAlg ∈ algs ∧ t.sigPayload = t.payload then
    match t.payload.lookup "exp" with
    | some (.intV e) => if e < now then .error "Signature has expired." else .ok t.payload
    | _ => .ok t.payload
  else .error "Signature verification failed."

/-- `JWTManager.create_access_token(data, expires_delta)` issued at time
`now`: expiry is `now + expires_delta` when given, else
`now + jwt_expire_minutes * 60` (the `settings` defaults are passed in
as `secret_key`, `jwt_algorithm`, `jwt_expire_minutes`). -/
def create_access_token (data : List (String × PyVal)) (expires_delta : Option Int)
    (now : Int) (secret_key jwt_algorithm : String) (jwt_expire_minutes : Int) : Token :=
  let expire : Int :=
    match expires_delta with
    | some d => now + d
    | none => now + jwt_expire_minutes * 60
  jwtEncode (dictSet data "exp" (.intV expire)) secret_key jwt_algorithm

/-- `JWTManager.verify_token(token)` at time `now`: the decoded claims,
or `none` when `jose` raised a `JWTError`. -/
def verify_token (t : Token) (now : Int) (secret_key jwt_algorithm : String) :
    Option (List (String × PyVal)) :=
  match jwtDecode t secret_key [jwt_algorithm] now with
  | .ok payload => some payload
  | .error _ => none

/-!  ## src/proxmox_client.py — `ProxmoxClient.validate_connection`

```python
async def validate_connection(self) -> bool:
    try:
        if not self.api:
            return False
        now = datetime.now()
        if (self._last_connection_check and
            (now - self._last_connection_check).seconds < 300):
            return True
        version_info = await self._execute_with_retry(lambda: self.api.version.get())
        if version_info:
            self._last_connection_check = now
            return True
        return False
    except Exception as e:
        ...
        return False
```

State: whether `self.api` is set, and `self._last_connection_check` as
an absolute timestamp in seconds (`none` = `None`); `now ≥` the stored
timestamp (monotone clock).  `(now - last).seconds` is again the
seconds component of the `timedelta`, i.e. the elapsed time mod 86400.
The probe `lambda: self.api.version.get()` is `probe : Nat → Except
String PyVal` as in `execute_with_retry`.  Returns the boolean result,
the new `_last_connection_check`, and how many times the underlying
probe call was invoked. -/
def validate_connection (apiSet : Bool) (lastCheck : Option Nat) (now : Nat)
    (probe : Nat → Except String PyVal) : Bool × Option Nat × Nat :=
  if !apiSet then (false, lastCheck, 0)
  else
    let doProbe : Bool × Option Nat × Nat :=
      match execute_with_retry probe 3 with
      | (.ok v, cnt) => if pyTruthy v then (true, some now, cnt) else (false, lastCheck, cnt)
      | (.error _, cnt) => (false, lastCheck, cnt)
    match lastCheck with
    | some t => if tdSeconds (now - t) < 300 then (true, lastCheck, 0) else doProbe
    | none => doProbe

/-!  ## The dispatcher pipeline

`ProxmoxMCPServer._execute_tool` (src/mcp_server.py) dispatches a tool
name to a service method; the services issue remote calls through the
one shared `ProxmoxClient`, every call wrapped in
`_execute_with_retry`.  Remote interactions are reified as
`RemoteCall` values; a `Transport` answers the `idx`-th issued call
(`.error` = the underlying library raised).  Computations are run in
`M`, state-passing over the trace of issued remote calls, so that
"which remote calls were issued" is part of every result. -/

inductive RemoteCall where
  | vmStart (node vmid : PyVal)
  | taskStatus (node upid : PyVal)
deriving DecidableEq

def Transport : Type := RemoteCall → Nat → Except String PyVal

def M (α : Type) : Type := List RemoteCall → Except PError α × List RemoteCall

def mret {α : Type} (a : α) : M α := fun log => (.ok a, log)

def mthrow {α : Type} (e : PError) : M α := fun log => (.error e, log)

def mbind {α β : Type} (m : M α) (f : α → M β) : M β := fun log =>
  match m log with
  | (.ok a, l) => f a l
  | (.error e, l) => (.error e, l)

/-- `try: ... except Exception as e: ...` around a computation. -/
def mtry {α : Type} (m : M α) (h : PError → M α) : M α := fun log =>
  match m log with
  | (.ok a, l) => (.ok a, l)
  | (.error e, l) => h e l

def mofExcept {α : Type} (r : Except PError α) : M α := fun log => (r, log)

/-- `self._execute_with_retry(lambda: <one remote call>)`: the lambda
issues `c` through the transport, so the `i`-th attempt is answered by
`t c (n + i)` where `n` is the number of calls already issued; every
attempt appends `c` to the trace. -/
def executeWithRetryCall (t : Transport) (c : RemoteCall) : M PyVal := fun log =>
  match execute_with_retry (fun i => t c (log.length + i)) 3 with
  | (r, cnt) => (r, log ++ List.replicate cnt c)

namespace ProxmoxClient

/-- `ProxmoxClient.start_vm(node, vmid)` =
`self._execute_with_retry(lambda: self.api.nodes(node).qemu(vmid).status.start.post())`. -/
def start_vm (t : Transport) (node vmid : PyVal) : M PyVal :=
  executeWithRetryCall t (.vmStart node vmid)

/-- `ProxmoxClient.get_task_status(node, upid)` =
`self._execute_with_retry(lambda: self.api.nodes(node).tasks(upid).status.get())`. -/
def get_task_status (t : Transport) (node upid : PyVal) : M PyVal :=
  executeWithRetryCall t (.taskStatus node upid)

end ProxmoxClient

namespace VMService

/-- `VMService.start_vm(node, vmid)` (src/services/vm_service.py):
issues the start call and returns the result dict immediately — it does
not call `wait_for_task`.  Any exception is logged and re-raised as
`ProxmoxMCPException(f"Failed to start VM: {str(e)}")`. -/
def start_vm (t : Transport) (node vmid : PyVal) : M PyVal :=
  mtry
    (mbind (ProxmoxClient.start_vm t node vmid) (fun task_id =>
      mret (.dict [("vmid", vmid), ("node", node), ("task_id", task_id),
                   ("action", .str "start"), ("status", .str "started")])))
    (fun e => mthrow (ProxmoxMCPException ("Failed to start VM: " ++ e.message)))

end VMService

/-- `arguments[k]`: a missing key raises `KeyError`. -/
def getItem (args : List (String × PyVal)) (k : String) : Except PError PyVal :=
  match args.lookup k with
  | some v => .ok v
  | none => .error { message := k, errorCode := "KeyError", details := [] }

/-- The tool names with a dispatch branch in
`ProxmoxMCPServer._execute_tool`, in source order. -/
def registeredTools : List String :=
  ["list_vms", "get_vm_details", "create_vm", "start_vm", "stop_vm", "delete_vm",
   "clone_vm", "migrate_vm",
   "list_containers", "get_container_details", "create_container", "start_container",
   "stop_container", "delete_container", "clone_container",
   "get_cluster_status", "get_cluster_resources", "get_ha_resources",
   "list_storages", "get_storage_status", "get_storage_content",
   "get_network_config", "create_bridge",
   "list_nodes", "get_node_status", "get_node_services",
   "create_backup", "list_backups", "restore_backup"]

/-- `ProxmoxMCPServer._execute_tool(name, arguments)`.  The `start_vm`
branch is embedded concretely
(`await self.vm_service.start_vm(arguments["node"], arguments["vmid"])`,
the argument lookups evaluated first); every other registered branch is
the same shape — a direct delegation to a service method with looked-up
arguments and **no** role or permission check anywhere on the path — and
is abstracted as the handler `other`, over which the theorems
universally quantify.  A name with no branch falls through to
`raise ProxmoxMCPException(f"Unknown tool: {name}")`. -/
def _execute_tool (other : String → List (String × PyVal) → M PyVal) (t : Transport)
    (name : String) (args : List (String × PyVal)) : M PyVal :=
  if name = "start_vm" then
    mbind (mofExcept (getItem args "node")) (fun node =>
      mbind (mofExcept (getItem args "vmid")) (fun vmid =>
        VMService.start_vm t node vmid))
  else if name ∈ registeredTools then other name args
  else mthrow (ProxmoxMCPException ("Unknown tool: " ++ name))

/-- The `TextContent` answer produced by `handle_call_tool`:
`TextContent(type="text", text=str(result))` on success (the `str`
rendering kept symbolic as the wrapped value), or
`TextContent(type="text", text=error_msg)` on a caught exception. -/
inductive ToolText where
  | ofVal (v : PyVal)
  | ofErr (s : String)
deriving DecidableEq

/-- `handle_call_tool(name, arguments)` (src/mcp_server.py):
```python
try:
    result = await self._execute_tool(name, arguments)
    return [TextContent(type="text", text=str(result))]
except Exception as e:
    logger.error(...)
    error_msg = f"Tool execution failed: {str(e)}"
    return [TextContent(type="text", text=error_msg)]
```
Total: every exception of `_execute_tool` is caught and converted. -/
def handle_call_tool (other : String → List (String × PyVal) → M PyVal) (t : Transport)
    (name : String) (args : List (String × PyVal)) (log : List RemoteCall) :
    ToolText × List RemoteCall :=
  match _execute_tool other t name args log with
  | (.ok v, l) => (.ofVal v, l)
  | (.error e, l) => (.ofErr ("Tool execution failed: " ++ e.message), l)

/-- A transport for the end-to-end scenario: the start call is accepted
with task handle `"UPID:123"`; task-status reads report `"running"`
twice and then a terminal `"OK"` status. -/
def mockTransport : Transport := fun c idx =>
  match c with
  | .vmStart _ _ => .ok (.str "UPID:123")
  | .taskStatus _ _ =>
    if idx ≤ 2 then .ok (.dict [("status", .str "running")])
    else .ok (.dict [("status", .str "stopped"), ("exitstatus", .str "OK")])

/-- A concrete instantiation for the abstracted dispatch branches, used
only to close universally quantified statements at a witness point. -/
def otherToolsStub : String → List (String × PyVal) → M PyVal := fun _ _ =>
  mthrow (ProxmoxMCPException "unembedded tool")

/-- The arguments of the end-to-end scenario. -/
def startArgs : List (String × PyVal) := [("node", .str "pve1"), ("vmid", .intV 101)]

/-- The dict `VMService.start_vm` returns in the end-to-end scenario. -/
def startVmResult : PyVal :=
  .dict [("vmid", .intV 101), ("node", .str "pve1"), ("task_id", .str "UPID:123"),
         ("action", .str "start"), ("status", .str "started")]

example :
    _execute_tool otherToolsStub mockTransport "start_vm" startArgs [] =
      (.ok startVmResult, [.vmStart (.str "pve1") (.intV 101)]) := rfl

/-!  ## Fixtures for witnesses and counterexamples -/

/-- The success envelope the specification promises for the end-to-end
`start_vm` scenario: `{success:true, result:{vmid, node, status}}`. -/
def claimedStartEnvelope : PyVal :=
  .dict [("success", .boolV true),
         ("result", .dict [("vmid", .intV 101), ("node", .str "pve1"),
                           ("status", .str "started")])]

def isTaskStatusCall : RemoteCall → Bool
  | .taskStatus _ _ => true
  | _ => false

/-- A status source that is `"running"` forever. -/
def alwaysRunning : Nat → PyVal := fun _ => .dict [("status", .str "running")]

/-- A status source that is `"running"` for the first 3 polls and then
terminal with exit status `"OK"`. -/
def runningThenOK : Nat → PyVal := fun i =>
  if i < 3 then .dict [("status", .str "running")]
  else .dict [("status", .str "stopped"), ("exitstatus", .str "OK")]

/-- An operation failing on attempts 0 and 1 and succeeding on 2. -/
def retryOpSucceedsThird : Nat → Except String Nat := fun i =>
  if i < 2 then .error "boom" else .ok 7

/-- An operation failing on every attempt. -/
def retryOpAlwaysFails : Nat → Except String Nat := fun _ => .error "down"

/-- A probe whose result is a truthy version dict. -/
def probeStub : Nat → Except String PyVal := fun _ => .ok (.dict [("version", .str "8.0")])

/-- Alter the `"sub"` claim of an issued token without re-signing. -/
def tamperToken (t : Token) : Token :=
  { t with payload := dictSet t.payload "sub" (.str "mallory") }

/-!  # Claims -/

/-- C1.  The specification requires every mutating operation to pass the
authorization gate: a caller with role `"viewer"` invoking `start_vm`
must get a `PermissionDenied` error and no remote call may be issued.
The code violates this: `RBACManager.check_permission` would indeed deny
(`check_permission true "viewer" "vm:start" = false`), but
`ProxmoxMCPServer._execute_tool` takes no caller role and consults no
permission check on any path, so the `start_vm` handler runs and the
remote start call is issued regardless of the caller: the dispatcher
returns the success payload and the trace contains the
`vmStart` transport call. -/
theorem permission_gate_unenforced :
    check_permission true "viewer" "vm:start" = false
    ∧ handle_call_tool otherToolsStub mockTransport "start_vm" startArgs [] =
        (.ofVal startVmResult, [.vmStart (.str "pve1") (.intV 101)]) :=
  ⟨by decide, rfl⟩

/-- C2.  `_execute_with_retry` with `max_retries = 3`: an operation that
fails on every attempt `i < k` and succeeds on attempt `k` (for
`k < 3`) yields the success value after exactly `k + 1` invocations;
an operation failing on all 3 attempts is invoked exactly 3 times and
the typed exception raised on exhaustion carries the last underlying
error (attempt 2's) in its message. -/
theorem execute_with_retry_attempt_counts {α : Type} (op : Nat → Except String α)
    (es : Nat → String) (k : Nat) (v : α) :
    (k < 3 → (∀ i, i < k → op i = .error (es i)) → op k = .ok v →
      execute_with_retry op 3 = (.ok v, k + 1))
    ∧ ((∀ i, i < 3 → op i = .error (es i)) →
      execute_with_retry op 3 =
        (.error (ProxmoxMCPException ("Operation failed after 3 attempts: " ++ es 2)), 3)) := by
  constructor
  · intro hk hfail hok
    interval_cases k
    · simp [execute_with_retry, retryGo, hok]
    · have h0 := hfail 0 (by omega)
      simp [execute_with_retry, retryGo, h0, hok]
    · have h0 := hfail 0 (by omega)
      have h1 := hfail 1 (by omega)
      simp [execute_with_retry, retryGo, h0, h1, hok]
  · intro hfail
    have h0 := hfail 0 (by omega)
    have h1 := hfail 1 (by omega)
    have h2 := hfail 2 (by omega)
    have hmsg : ("Operation failed after " ++ toString (3 : Int) ++ " attempts: " : String) =
        "Operation failed after 3 attempts: " := by decide
    simp [execute_with_retry, retryGo, h0, h1, h2, pyStrOfLast, hmsg]

/-- C2 witness: with an operation failing twice then succeeding the
wrapper returns the value after 3 invocations, and with an
always-failing operation it makes exactly 3 invocations and raises the
exhaustion error carrying the last failure. -/
theorem execute_with_retry_attempt_counts_witness :
    execute_with_retry retryOpSucceedsThird 3 = (.ok 7, 3)
    ∧ execute_with_retry retryOpAlwaysFails 3 =
        (.error (ProxmoxMCPException "Operation failed after 3 attempts: down"), 3) :=
  ⟨(execute_with_retry_attempt_counts retryOpSucceedsThird (fun _ => "boom") 2 7).1
      (by omega) (by intro i hi; interval_cases i <;> rfl) rfl,
   (execute_with_retry_attempt_counts retryOpAlwaysFails (fun _ => "down") 0 0).2
      (by intro i _; rfl)⟩

/-- C10.  `_execute_with_retry` with `max_retries ≤ 0`: `range(max_retries)`
is empty, so the operation is never invoked (invocation count `0`) and
the exhaustion exception is raised immediately with
`str(last_exception) = str(None) = "None"` embedded in its message. -/
theorem execute_with_retry_nonpositive {α : Type} (op : Nat → Except String α)
    (m : Int) (hm : m ≤ 0) :
    execute_with_retry op m =
      (.error (ProxmoxMCPException
          ("Operation failed after " ++ toString m ++ " attempts: None")), 0) := by
  have h0 : m.toNat = 0 := Int.toNat_of_nonpos hm
  have h1 : (" attempts: " ++ "None" : String) = " attempts: None" := by decide
  simp [execute_with_retry, h0, retryGo, pyStrOfLast, String.append_assoc, h1]

/-- C10 witness: at `max_retries = -1` the operation is not invoked and
the raised message embeds `"None"` and the original `-1`. -/
theorem execute_with_retry_nonpositive_witness :
    execute_with_retry retryOpAlwaysFails (-1) =
      (.error (ProxmoxMCPException "Operation failed after -1 attempts: None"), 0) :=
  execute_with_retry_nonpositive retryOpAlwaysFails (-1) (by omega)

/-- C4.  The claim says `validate_connection` returns the cached alive
answer exactly when the last successful check is younger than 300
seconds, and re-probes whenever it is 300 seconds old or older.  The
code instead tests `(now - last).seconds < 300` — the *seconds
component* of the `timedelta`, i.e. the elapsed time modulo one day —
contradicting its own `# Check connection every 5 minutes` comment:
with a last check 86500 seconds old (1 day + 100 s) the component is
100, so the stale cache is returned as alive and no probe is issued. -/
theorem validate_connection_stale_cache_bug :
    validate_connection true (some 0) 86500 probeStub = (true, some 0, 0)
    ∧ tdSeconds (86500 - 0) = 100
    ∧ 300 ≤ 86500 - 0 :=
  ⟨rfl, by decide, by omega⟩

/-- C5.  `RBACManager.check_permission` is a total function of the
role/permission pair (and the `enable_rbac` flag): with enforcement
disabled it grants every pair; with enforcement enabled it grants
exactly membership in `ROLES.get(role, [])`, and a role absent from the
static table resolves to the empty permission list, so every permission
is denied for an unknown role. -/
theorem check_permission_total_lookup (r p : String) :
    check_permission false r p = true
    ∧ (check_permission true r p = true ↔ p ∈ get_user_permissions r)
    ∧ (ROLES.lookup r = none → check_permission true r p = false) := by
  refine ⟨rfl, by simp [check_permission], fun h => ?_⟩
  simp [check_permission, get_user_permissions, h]

/-- C5 witness: the unknown role `"ghost"` is denied `"vm:start"` under
enforcement but granted when enforcement is disabled. -/
theorem check_permission_total_lookup_witness :
    check_permission false "ghost" "vm:start" = true
    ∧ check_permission true "ghost" "vm:start" = false :=
  ⟨(check_permission_total_lookup "ghost" "vm:start").1,
   (check_permission_total_lookup "ghost" "vm:start").2.2 (by decide)⟩

/-- C6.  The built-in role permission sets are nested: every permission
of `"viewer"` is a permission of `"operator"`, and every permission of
`"operator"` is a permission of `"admin"`; equivalently, with
enforcement enabled, `check_permission` grants upward along
viewer → operator → admin for every permission string. -/
theorem role_permission_nesting (p : String) :
    (check_permission true "viewer" p = true → check_permission true "operator" p = true)
    ∧ (check_permission true "operator" p = true → check_permission true "admin" p = true) := by
  have h1 : ∀ x ∈ get_user_permissions "viewer", x ∈ get_user_permissions "operator" := by
    decide
  have h2 : ∀ x ∈ get_user_permissions "operator", x ∈ get_user_permissions "admin" := by
    decide
  constructor
  · intro h
    simp only [check_permission, Bool.not_true, Bool.false_eq_true, if_false,
      decide_eq_true_eq] at h ⊢
    exact h1 _ h
  · intro h
    simp only [check_permission, Bool.not_true, Bool.false_eq_true, if_false,
      decide_eq_true_eq] at h ⊢
    exact h2 _ h

/-- C6 witness: `"vm:monitor"`, held by viewer, is granted to operator
and to admin through the nesting. -/
theorem role_permission_nesting_witness :
    check_permission true "operator" "vm:monitor" = true
    ∧ check_permission true "admin" "vm:monitor" = true :=
  ⟨(role_permission_nesting "vm:monitor").1 (by decide),
   (role_permission_nesting "vm:monitor").2 (by decide)⟩

/-- C8 counterexample.  Calling the unregistered name `"frobnicate"`
does produce an error answer, but not the claimed
`{success:false, error:{code:"UnknownOperation"}}` envelope: the
dispatcher raises the base `ProxmoxMCPException`, whose machine-readable
code is `"PROXMOX_MCP_ERROR"`, not `"UnknownOperation"`, and
`handle_call_tool` converts it to the plain error text
`"Tool execution failed: Unknown tool: frobnicate"`. -/
theorem unknown_tool_error_code_counterexample :
    _execute_tool otherToolsStub mockTransport "frobnicate" [] [] =
      (.error (ProxmoxMCPException "Unknown tool: frobnicate"), [])
    ∧ (ProxmoxMCPException "Unknown tool: frobnicate").errorCode = "PROXMOX_MCP_ERROR"
    ∧ "PROXMOX_MCP_ERROR" ≠ "UnknownOperation"
    ∧ handle_call_tool otherToolsStub mockTransport "frobnicate" [] [] =
        (.ofErr "Tool execution failed: Unknown tool: frobnicate", []) :=
  ⟨rfl, rfl, by decide, rfl⟩

/-- C8 (amended).  For every operation name outside the registered tool
list, and whatever the abstracted handlers and transport do,
`_execute_tool` raises `ProxmoxMCPException("Unknown tool: <name>")`
and `handle_call_tool` converts it to the uniform error text; and more
generally whatever exception `_execute_tool` ends in, `handle_call_tool`
catches it and answers with
`"Tool execution failed: " ++ str(e)` — no exception escapes to the
caller. -/
theorem unknown_tool_uniform_error :
    (∀ other t name args log, name ∉ registeredTools →
      handle_call_tool other t name args log =
        (.ofErr ("Tool execution failed: " ++ ("Unknown tool: " ++ name)), log))
    ∧ (∀ other t name args log e l,
      _execute_tool other t name args log = (.error e, l) →
      handle_call_tool other t name args log =
        (.ofErr ("Tool execution failed: " ++ e.message), l)) := by
  constructor
  · intro other t name args log hname
    have hne : ¬name = "start_vm" := by
      intro h
      exact hname (h ▸ (by decide : "start_vm" ∈ registeredTools))
    simp [handle_call_tool, _execute_tool, hne, hname, mthrow, ProxmoxMCPException]
  · intro other t name args log e l h
    simp [handle_call_tool, h]

/-- C8 witness: the unregistered name `"nope"` gets the uniform error
text, and an exception thrown inside a registered branch (here the
abstracted `"list_vms"` handler) is caught and converted, never
escaping. -/
theorem unknown_tool_uniform_error_witness :
    handle_call_tool otherToolsStub mockTransport "nope" [] [] =
      (.ofErr ("Tool execution failed: " ++ ("Unknown tool: " ++ "nope")), [])
    ∧ handle_call_tool otherToolsStub mockTransport "list_vms" [] [] =
        (.ofErr ("Tool execution failed: " ++ "unembedded tool"), []) :=
  ⟨unknown_tool_uniform_error.1 otherToolsStub mockTransport "nope" [] [] (by decide),
   unknown_tool_uniform_error.2 otherToolsStub mockTransport "list_vms" [] []
      (ProxmoxMCPException "unembedded tool") [] rfl⟩

/-- C9 counterexample.  In the end-to-end `start_vm` scenario the code
issues exactly one remote call — the start POST, answered with
`"UPID:123"` — and no task-status poll at all, and the dict it returns
carries the extra `task_id` and `action` fields, so it is not the
claimed `{vmid, node, status}` result: the handler does not block on
the task poller (that is done by `create_vm`/`delete_vm`, not
`start_vm`). -/
theorem start_vm_no_poll_counterexample :
    _execute_tool otherToolsStub mockTransport "start_vm" startArgs [] =
      (.ok startVmResult, [.vmStart (.str "pve1") (.intV 101)])
    ∧ [RemoteCall.vmStart (.str "pve1") (.intV 101)].filter isTaskStatusCall = []
    ∧ pyGet startVmResult "task_id" = some (.str "UPID:123")
    ∧ startVmResult ≠ claimedStartEnvelope
    ∧ pyGet claimedStartEnvelope "success" = some (.boolV true) :=
  ⟨rfl, rfl, rfl, by decide, rfl⟩

/-- C9 (amended).  `callOperation("start_vm", {node:"pve1", vmid:101})`
against the scenario transport yields the text answer wrapping
`{vmid:101, node:"pve1", task_id:"UPID:123", action:"start",
status:"started"}` after exactly one remote call and zero task-status
polls: `VMService.start_vm` returns as soon as the start call is
accepted, without waiting for the remote task. -/
theorem start_vm_returns_without_polling :
    handle_call_tool otherToolsStub mockTransport "start_vm" startArgs [] =
      (.ofVal startVmResult, [.vmStart (.str "pve1") (.intV 101)])
    ∧ ([RemoteCall.vmStart (.str "pve1") (.intV 101)].filter isTaskStatusCall).length = 0 :=
  ⟨by decide, by decide⟩

/-- A non-terminal, in-budget iteration of the `wait_for_task` loop
just burns one unit of fuel and moves to the next poll. -/
theorem waitGo_step (statuses : Nat → PyVal) (upid : String) (timeout : Int) (fuel i : Nat)
    (hrun : pyGet (statuses i) "status" = some (.str "running"))
    (hto : (tdSeconds (2 * i) : Int) ≤ timeout) :
    waitGo statuses upid timeout (fuel + 1) i = waitGo statuses upid timeout fuel (i + 1) := by
  simp only [waitGo, hrun]
  rw [if_neg (by simp), if_neg (by omega)]

/-- Iterating `waitGo_step`: `L` consecutive running, in-budget polls
advance the poll index by `L`. -/
theorem waitGo_skip (statuses : Nat → PyVal) (upid : String) (timeout : Int) :
    ∀ (L i fuel : Nat),
      (∀ j, i ≤ j → j < i + L →
        pyGet (statuses j) "status" = some (.str "running")
        ∧ (tdSeconds (2 * j) : Int) ≤ timeout) →
      waitGo statuses upid timeout (L + fuel) i = waitGo statuses upid timeout fuel (i + L)
  | 0, i, fuel, _ => by simp
  | L + 1, i, fuel, h => by
    have hstep := waitGo_step statuses upid timeout (L + fuel) i
      (h i le_rfl (by omega)).1 (h i le_rfl (by omega)).2
    have he : L + 1 + fuel = (L + fuel) + 1 := by omega
    rw [he, hstep,
      waitGo_skip statuses upid timeout L (i + 1) fuel
        (fun j hj1 hj2 => h j (by omega) (by omega))]
    congr 1
    omega

/-- If the `wait_for_task` loop returns a status object, that object's
`status` field is not `"running"`. -/
theorem waitGo_ok_not_running (statuses : Nat → PyVal) (upid : String) (timeout : Int) :
    ∀ (fuel i : Nat) (s : PyVal),
      waitGo statuses upid timeout fuel i = some (.ok s) →
      pyGet s "status" ≠ some (.str "running")
  | 0, i, s => by simp [waitGo]
  | fuel + 1, i, s => by
    intro h
    cases hg : pyGet (statuses i) "status" with
    | none =>
      simp [waitGo, hg] at h
    | some st =>
      by_cases hrun : st = .str "running"
      · subst hrun
        simp only [waitGo, hg, ne_eq, not_true_eq_false, if_false, ite_not] at h
        split at h
        · simp at h
        · exact waitGo_ok_not_running statuses upid timeout fuel (i + 1) s h
      · simp only [waitGo, hg, ne_eq] at h
        rw [if_pos hrun] at h
        simp only [Option.some.injEq, Except.ok.injEq] at h
        subst h
        rw [hg]
        exact fun hc => hrun (by injection hc)

/-- C3 counterexample.  With an always-`"running"` source and
`timeout = 1`, the loop does fail on the second poll, but not with the
typed timeout error the claim describes: the raised exception is the
base `ProxmoxMCPException` — machine-readable code
`"PROXMOX_MCP_ERROR"`, empty `details` — carrying the handle and the
timeout only inside its message text, whereas the repository's
`ProxmoxTimeoutException` (the typed timeout error, unused by
`wait_for_task`) would carry code `"PROXMOX_TIMEOUT_ERROR"` and a
structured `timeout` detail. -/
theorem wait_for_task_timeout_not_typed_counterexample :
    wait_for_task alwaysRunning "UPID:9" 1 2 =
      some (.error (ProxmoxMCPException "Task UPID:9 timed out after 1 seconds"))
    ∧ (ProxmoxMCPException "Task UPID:9 timed out after 1 seconds").errorCode =
        "PROXMOX_MCP_ERROR"
    ∧ (ProxmoxMCPException "Task UPID:9 timed out after 1 seconds").details = []
    ∧ (ProxmoxTimeoutException "Task UPID:9 timed out after 1 seconds" (some 1)).errorCode =
        "PROXMOX_TIMEOUT_ERROR"
    ∧ (ProxmoxTimeoutException "Task UPID:9 timed out after 1 seconds" (some 1)).details =
        [("timeout", .intV 1)]
    ∧ "PROXMOX_MCP_ERROR" ≠ "PROXMOX_TIMEOUT_ERROR" :=
  ⟨rfl, rfl, rfl, rfl, rfl, by decide⟩

/-- C3 (amended).  `wait_for_task` returns the first fetched status
object whose `status` field differs from `"running"` and never returns
a `"running"` one, polling every 2 seconds; and when the elapsed time
exceeds `timeout` (below the one-day wrap-around of the `timedelta`
seconds component) while the status is still `"running"`, it raises the
base `ProxmoxMCPException` whose message embeds the task handle and the
timeout value — not the typed `ProxmoxTimeoutException`. -/
theorem wait_for_task_first_terminal_and_timeout :
    (∀ (statuses : Nat → PyVal) (upid : String) (timeout : Int) (k : Nat) (s : PyVal),
      (∀ j, j < k → pyGet (statuses j) "status" = some (.str "running")) →
      (∀ j, j < k → (tdSeconds (2 * j) : Int) ≤ timeout) →
      pyGet (statuses k) "status" = some s → s ≠ .str "running" →
      wait_for_task statuses upid timeout (k + 1) = some (.ok (statuses k)))
    ∧ (∀ (statuses : Nat → PyVal) (upid : String) (timeout : Int),
      (∀ j, pyGet (statuses j) "status" = some (.str "running")) →
      0 ≤ timeout → timeout < 86398 →
      wait_for_task statuses upid timeout (timeout.toNat / 2 + 2) =
        some (.error (ProxmoxMCPException
          ("Task " ++ upid ++ " timed out after " ++ toString timeout ++ " seconds"))))
    ∧ (∀ (statuses : Nat → PyVal) (upid : String) (timeout : Int) (fuel : Nat) (s : PyVal),
      wait_for_task statuses upid timeout fuel = some (.ok s) →
      pyGet s "status" ≠ some (.str "running")) := by
  refine ⟨?_, ?_, ?_⟩
  · intro statuses upid timeout k s hrun hto hk hne
    unfold wait_for_task
    rw [waitGo_skip statuses upid timeout k 0 1
      (fun j h1 h2 => ⟨hrun j (by omega), hto j (by omega)⟩)]
    simp only [Nat.zero_add, waitGo, hk]
    rw [if_pos hne]
  · intro statuses upid timeout hrun hnn hlt
    have ht : ((timeout.toNat : Int)) = timeout := Int.toNat_of_nonneg hnn
    unfold wait_for_task
    have hskip := waitGo_skip statuses upid timeout (timeout.toNat / 2 + 1) 0 1
      (fun j h1 h2 => by
        refine ⟨hrun j, ?_⟩
        have hmod : tdSeconds (2 * j) = 2 * j := Nat.mod_eq_of_lt (by omega)
        rw [hmod]
        omega)
    have he : timeout.toNat / 2 + 2 = (timeout.toNat / 2 + 1) + 1 := by omega
    rw [he, hskip]
    have hmod : tdSeconds (2 * (0 + (timeout.toNat / 2 + 1))) =
        2 * (0 + (timeout.toNat / 2 + 1)) := Nat.mod_eq_of_lt (by omega)
    simp only [waitGo, hrun]
    rw [if_neg (by simp), if_pos (by rw [hmod]; omega)]
  · intro statuses upid timeout fuel s h
    exact waitGo_ok_not_running statuses upid timeout fuel 0 s h

/-- C3 witness: a source running for 3 polls then terminal with
`"OK"` yields the 4th status object; an always-running source with
`timeout = 1` raises the base exception on the second poll; and the
returned terminal object is indeed not `"running"`. -/
theorem wait_for_task_first_terminal_and_timeout_witness :
    wait_for_task runningThenOK "UPID:1" 300 4 = some (.ok (runningThenOK 3))
    ∧ wait_for_task alwaysRunning "UPID:9" 1 2 =
        some (.error (ProxmoxMCPException "Task UPID:9 timed out after 1 seconds"))
    ∧ pyGet (runningThenOK 3) "status" ≠ some (.str "running") :=
  ⟨wait_for_task_first_terminal_and_timeout.1 runningThenOK "UPID:1" 300 3 (.str "stopped")
      (by decide) (by decide) rfl (by decide),
   wait_for_task_first_terminal_and_timeout.2.1 alwaysRunning "UPID:9" 1
      (fun _ => rfl) (by decide) (by decide),
   wait_for_task_first_terminal_and_timeout.2.2 runningThenOK "UPID:1" 300 4
      (runningThenOK 3) rfl⟩

/-- C7.  Token round-trip and rejection for `JWTManager` (the `jose`
primitives modelled as an ideal MAC): a token issued over
`{sub: "alice"}` with the default expiry verifies immediately and the
returned claims contain `sub = "alice"`; verifying the same token after
its expiry timestamp has passed returns `none`; and verifying a
payload-tampered token returns `none`.  `verify_token` is a total
function into `Option` — every `JWTError` is mapped to `none`, so
verification never throws past this boundary. -/
theorem jwt_round_trip_and_rejection (now later : Int) (key alg : String) (mins : Int) :
    (0 ≤ mins →
      ∃ claims,
        verify_token (create_access_token [("sub", .str "alice")] none now key alg mins)
            now key alg = some claims
        ∧ claims.lookup "sub" = some (.str "alice"))
    ∧ (now + mins * 60 < later →
      verify_token (create_access_token [("sub", .str "alice")] none now key alg mins)
          later key alg = none)
    ∧ verify_token
        (tamperToken (create_access_token [("sub", .str "alice")] none now key alg mins))
        now key alg = none := by
  have hpay : create_access_token [("sub", PyVal.str "alice")] none now key alg mins =
      ({ payload := [("sub", .str "alice"), ("exp", .intV (now + mins * 60))],
         sigKey := key, sigAlg := alg,
         sigPayload := [("sub", .str "alice"), ("exp", .intV (now + mins * 60))] } : Token) :=
    rfl
  have hdec : ∀ T : Int,
      jwtDecode
        ({ payload := [("sub", .str "alice"), ("exp", .intV (now + mins * 60))],
           sigKey := key, sigAlg := alg,
           sigPayload := [("sub", .str "alice"), ("exp", .intV (now + mins * 60))] } : Token)
        key [alg] T =
      if now + mins * 60 < T then .error "Signature has expired."
      else .ok [("sub", .str "alice"), ("exp", .intV (now + mins * 60))] := by
    intro T
    unfold jwtDecode
    rw [if_pos (by simp)]
    rfl
  refine ⟨fun hm => ?_, fun hl => ?_, ?_⟩
  · refine ⟨[("sub", .str "alice"), ("exp", .intV (now + mins * 60))], ?_, rfl⟩
    unfold verify_token
    rw [hpay, hdec now, if_neg (by omega)]
  · unfold verify_token
    rw [hpay, hdec later, if_pos hl]
  · have hne : ([("sub", PyVal.str "alice"), ("exp", PyVal.intV (now + mins * 60))] :
        List (String × PyVal)) ≠
        [("sub", PyVal.str "mallory"), ("exp", PyVal.intV (now + mins * 60))] := by
      intro hcontra
      have hlook := congrArg (List.lookup "sub") hcontra
      exact absurd
        (show (some (PyVal.str "alice") : Option PyVal) = some (PyVal.str "mallory") from hlook)
        (by decide)
    have htam : tamperToken (create_access_token [("sub", PyVal.str "alice")] none now key alg mins) =
        ({ payload := [("sub", .str "mallory"), ("exp", .intV (now + mins * 60))],
           sigKey := key, sigAlg := alg,
           sigPayload := [("sub", .str "alice"), ("exp", .intV (now + mins * 60))] } : Token) :=
      rfl
    unfold verify_token
    rw [htam]
    unfold jwtDecode
    rw [if_neg (fun h => hne h.2.2)]

/-- C7 witness: issued at time 1000 with a 60-minute expiry and secret
`"k"`, the token verifies at time 1000 with `sub = "alice"`, fails to
verify at time 4601 (past the expiry 4600), and fails to verify after
tampering. -/
theorem jwt_round_trip_and_rejection_witness :
    (∃ claims,
      verify_token (create_access_token [("sub", .str "alice")] none 1000 "k" "HS256" 60)
          1000 "k" "HS256" = some claims
      ∧ claims.lookup "sub" = some (.str "alice"))
    ∧ verify_token (create_access_token [("sub", .str "alice")] none 1000 "k" "HS256" 60)
        4601 "k" "HS256" = none
    ∧ verify_token
        (tamperToken (create_access_token [("sub", .str "alice")] none 1000 "k" "HS256" 60))
        1000 "k" "HS256" = none :=
  ⟨(jwt_round_trip_and_rejection 1000 4601 "k" "HS256" 60).1 (by omega),
   (jwt_round_trip_and_rejection 1000 4601 "k" "HS256" 60).2.1 (by omega),
   (jwt_round_trip_and_rejection 1000 4601 "k" "HS256" 60).2.2⟩
